import Mathlib

/-!
Verification of the CDAP client library (src/cdap.py).

The development shallowly embeds the client in Lean:

* JSON values are the inductive `Json`; Python dict subscription is
  `Json.index`, which fails (KeyError/TypeError) exactly when the Python
  expression raises.
* Python runtime values that flow into identity comparisons
  (`kerberized is True`, `overwrite_pipeline is False`) are the inductive
  `PyVal`, so that non-boolean falsy values such as None and 0 are
  distinguishable from the singleton False, as they are in CPython.
* `ApiRequestSpecification` and the request executor come from a module
  outside this repository; they are modelled from the spec: the
  specification is a pure data record (method, URL, query parameters,
  JSON body, TLS-verify flag, optional bearer token) with a mutator
  setting the bearer token, and the executor performs exactly one HTTP
  round trip per dispatched specification.
* Effects are explicit: a computation of type `M A` takes a network
  oracle (mapping each dispatched request specification to a response or
  a raised transport/parsing error) and the effects so far (the ordered
  trace of dispatched requests plus the log lines emitted), returning a
  result (`Except` models Python exceptions) and the extended effects.
* Program descriptors and workflow executions are the typed records
  `Program` and `Execution`, decoded from JSON at the response boundary;
  the decoders demand exactly the fields the Python code reads.
* Python `sorted(pairs, reverse=True)` in `get_last_executed_workflow_id`
  sorts composite keys `(starting, index)` that are pairwise distinct
  (the index components differ), so every correct sorting algorithm
  produces the same output; it is embedded as `List.insertionSort` with
  the reversed (descending) lexicographic order, which the kernel can
  evaluate.
-/

/-- HTTP request methods, mirroring the RequestType enumeration. -/
inductive RequestType where
  | GET
  | POST
  | PUT
  | DELETE
deriving DecidableEq, Repr

/-- JSON values, the payloads of requests and responses. -/
inductive Json where
  | null
  | bool (b : Bool)
  | num (n : Int)
  | str (s : String)
  | arr (elems : List Json)
  | obj (fields : List (String × Json))

/-- Python dict subscription `j[key]`: KeyError when the key is absent,
TypeError when `j` is not a dict. -/
def Json.index (j : Json) (key : String) : Except String Json :=
  match j with
  | .obj fields =>
    match fields.lookup key with
    | some v => Except.ok v
    | none => Except.error ("KeyError: " ++ key)
  | _ => Except.error "TypeError: value is not subscriptable by string"

/-- Python str() conversion as it applies to the values this client
feeds into string formatting (run ids, pipeline names, status fields).
Containers are abbreviated, which no claim exercises. -/
def pyStr : Json → String
  | .null => "None"
  | .bool true => "True"
  | .bool false => "False"
  | .num n => toString n
  | .str s => s
  | .arr _ => "<list>"
  | .obj _ => "<dict>"

/-- Python str.upper() (ASCII range, which covers every program type
name the client compares); defined on the character list so that the
kernel can evaluate it on literals. -/
def pyUpper (s : String) : String := ⟨s.data.map Char.toUpper⟩

/-- Python runtime values relevant to the identity comparisons
`kerberized is True` and `overwrite_pipeline is False`. -/
inductive PyVal where
  | none
  | bool (b : Bool)
  | int (n : Int)
  | str (s : String)
deriving DecidableEq, Repr

/-- A program descriptor as returned inside the pipeline info JSON:
the fields `type`, `name`, `app` that the client reads. -/
structure Program where
  type : String
  name : String
  app : String
deriving DecidableEq, Repr

/-- One workflow execution entry as returned by the runs listing: the
fields `starting` and `runid` that `get_last_executed_workflow_id`
reads. -/
structure Execution where
  starting : Int
  runid : String
deriving DecidableEq, Repr

/-- Modelled from the spec: `ApiRequestSpecification` (a module outside
this repository) is an immutable value describing one HTTP call —
method, URL, query parameters, JSON body, TLS-verification flag,
optional bearer token — with a mutator to attach a bearer token right
before dispatch. -/
structure ApiRequestSpecification where
  request_type : RequestType
  url : String
  query_params : List (String × String)
  json : Option Json
  verify : Bool
  bearer_token : Option Json

/-- The bearer-token mutator of the request specification. -/
def ApiRequestSpecification.set_bearer_token
    (s : ApiRequestSpecification) (t : Option Json) : ApiRequestSpecification :=
  { s with bearer_token := t }

/-- Build a request specification with no bearer token attached yet
(the constructor as every call site in cdap.py uses it). -/
def mkSpec (rt : RequestType) (url : String) (qp : List (String × String))
    (body : Option Json) (verify : Bool) : ApiRequestSpecification :=
  ⟨rt, url, qp, body, verify, Option.none⟩

/-- An HTTP response: status code and parsed JSON body. -/
structure Response where
  status_code : Int
  body : Json

/-- The observable effects of a run: the ordered trace of dispatched
request specifications and the emitted log lines. -/
structure Eff where
  reqs : List ApiRequestSpecification
  logs : List String

/-- The network oracle: what the outside world answers to each
dispatched request. An error models a raised transport or
JSON-parsing exception. -/
def Net : Type := ApiRequestSpecification → Except String Response

/-- The effect monad of the embedding: oracle and effects in, result
(or raised exception) and effects out. -/
def M (α : Type) : Type := Net → Eff → Except String α × Eff

def M.pure (a : α) : M α := fun _ e => (Except.ok a, e)

def M.bind (x : M α) (f : α → M β) : M β := fun net e =>
  match x net e with
  | (Except.ok a, e1) => f a net e1
  | (Except.error msg, e1) => (Except.error msg, e1)

instance : Monad M where
  pure := M.pure
  bind := M.bind

/-- Modelled from the spec: the request executor dispatches exactly the
given specification (recording it in the trace) and returns the raw
response; transport failures propagate. -/
def raw_execute (spec : ApiRequestSpecification) : M Response :=
  fun net e => (net spec, ⟨e.reqs ++ [spec], e.logs⟩)

/-- Lift a pure fallible step (dict lookups, decoding) into `M`. -/
def liftE (x : Except String α) : M α := fun _ e => (x, e)

/-- Emit a log line (logger.warn / logger.exception). -/
def logMsg (m : String) : M PUnit :=
  fun _ e => (Except.ok PUnit.unit, ⟨e.reqs, e.logs ++ [m]⟩)

/-! ### The Workflows enumeration (cdap.py lines 403-430) -/

namespace Workflows

/-- Embedding of `Workflows.get_api_workflow_name`: look up the enumeration member
named `workflow.upper()` and return its value; a name other than
WORKFLOW or SPARK raises KeyError. -/
def get_api_workflow_name (workflow : String) : Except String String :=
  if pyUpper workflow = "WORKFLOW" then Except.ok "workflows"
  else if pyUpper workflow = "SPARK" then Except.ok "spark"
  else Except.error ("KeyError: " ++ pyUpper workflow)

end Workflows

/-- The loop body of `Workflows.get_cdap_workflow`, with the running
`spark_program` accumulator: return the current program on a
workflow-typed entry, remember it and continue on a spark-typed entry,
skip it otherwise; at the end of the list return the accumulator. -/
def get_cdap_workflow_aux (spark_program : Option Program) :
    List Program → Option Program
  | [] => spark_program
  | program :: rest =>
    if pyUpper program.type = "WORKFLOW" then some program
    else if pyUpper program.type = "SPARK" then
      get_cdap_workflow_aux (some program) rest
    else get_cdap_workflow_aux spark_program rest

namespace Workflows

/-- Embedding of `Workflows.get_cdap_workflow`: scan the program list starting with
`spark_program = None`. -/
def get_cdap_workflow (program_list : List Program) : Option Program :=
  get_cdap_workflow_aux Option.none program_list

end Workflows

/-! ### JSON decoders at the typed response boundary -/

/-- Read a JSON string (Python would raise AttributeError on
`.upper()` of a non-string). -/
def Json.asString : Json → Except String String
  | .str s => Except.ok s
  | _ => Except.error "TypeError: expected a string"

/-- Read a JSON number (Python comparison of mixed sort keys would
raise TypeError). -/
def Json.asInt : Json → Except String Int
  | .num n => Except.ok n
  | _ => Except.error "TypeError: expected a number"

/-- Decode one program descriptor: the fields cdap.py reads. -/
def decodeProgram (j : Json) : Except String Program := do
  let t ← (← j.index "type").asString
  let n ← (← j.index "name").asString
  let a ← (← j.index "app").asString
  Except.ok ⟨t, n, a⟩

/-- Decode the `programs` list of the pipeline info JSON. -/
def decodePrograms : Json → Except String (List Program)
  | .arr xs => xs.mapM decodeProgram
  | _ => Except.error "TypeError: expected a list"

/-- Decode one execution entry: `starting` and `runid` (run ids go
through Python str()). -/
def decodeExecution (j : Json) : Except String Execution := do
  let st ← (← j.index "starting").asInt
  let rid ← j.index "runid"
  Except.ok ⟨st, pyStr rid⟩

/-- Decode the executions listing JSON. -/
def decodeExecutions : Json → Except String (List Execution)
  | .arr xs => xs.mapM decodeExecution
  | _ => Except.error "TypeError: expected a list"

/-- Decode the app list JSON into the pipeline names
(`pipeline["name"]` for each entry). -/
def decodeNames : Json → Except String (List String)
  | .arr xs => xs.mapM (fun j => do
      let n ← j.index "name"
      Except.ok (pyStr n))
  | _ => Except.error "TypeError: expected a list"

/-! ### The Cdap client facade (cdap.py lines 10-400) -/

/-- The client state after construction. All fields are set in
`Cdap.init` and never written again by any method. -/
structure Cdap where
  username : String
  password : String
  node_ip : String
  ui_port : String
  rest_port : String
  kerberized : PyVal
  namespace_id : String
  ui_base_url : String
  rest_base_url : String
  rest_url : String
  verify : Bool
  access_token : Option Json

/-- The login request built inside `get_access_token`: POST of the
credentials as a JSON body to the UI-port login endpoint over HTTPS,
with TLS verification already disabled, no bearer token attached. -/
def login_spec (node_ip ui_port username password : String) :
    ApiRequestSpecification :=
  mkSpec RequestType.POST ("https://" ++ node_ip ++ ":" ++ ui_port ++ "/login") []
    (some (Json.obj [("username", Json.str username), ("password", Json.str password)]))
    false

/-- Embedding of `Cdap.__init__`. The base URLs start as HTTP and `rest_url` is
derived from the HTTP `rest_base_url` first; only afterwards, and only
when `kerberized is True`, does `get_access_token` flip `verify` to
False, rewrite the two base URLs to HTTPS, POST the login call through
the raw executor (no bearer token) and store the `access_token` field
of its JSON body. Note that `rest_url` is not recomputed, exactly as
in the source. -/
def Cdap.init (node_ip rest_port ui_port username password : String)
    (kerberized : PyVal) (namespace_id : String) : M Cdap :=
  fun net e =>
    let rest0 : String := "http://" ++ node_ip ++ ":" ++ rest_port
    let namespaced : String := rest0 ++ "/v3/namespaces/" ++ namespace_id
    if kerberized = PyVal.bool true then
      let spec := login_spec node_ip ui_port username password
      match net spec with
      | Except.error msg => (Except.error msg, ⟨e.reqs ++ [spec], e.logs⟩)
      | Except.ok r =>
        match r.body.index "access_token" with
        | Except.error msg => (Except.error msg, ⟨e.reqs ++ [spec], e.logs⟩)
        | Except.ok tok =>
          (Except.ok
            ⟨username, password, node_ip, ui_port, rest_port, kerberized, namespace_id,
              "https://" ++ node_ip ++ ":" ++ ui_port,
              "https://" ++ node_ip ++ ":" ++ rest_port,
              namespaced, false, some tok⟩,
            ⟨e.reqs ++ [spec], e.logs⟩)
    else
      (Except.ok
        ⟨username, password, node_ip, ui_port, rest_port, kerberized, namespace_id,
          "http://" ++ node_ip ++ ":" ++ ui_port, rest0, namespaced, true, Option.none⟩,
        e)

/-- The specification actually handed to the executor by
`Cdap.execute_request`: when `kerberized is True` the stored access
token is attached first, otherwise the specification is dispatched
unchanged. -/
def Cdap.dispatched (c : Cdap) (spec : ApiRequestSpecification) :
    ApiRequestSpecification :=
  if c.kerberized = PyVal.bool true then spec.set_bearer_token c.access_token
  else spec

/-- Embedding of `Cdap.execute_request` (cdap.py lines 51-61). -/
def Cdap.execute_request (c : Cdap) (spec : ApiRequestSpecification) : M Response :=
  raw_execute (c.dispatched spec)

/-- Request built by `Cdap.apps`. -/
def apps_spec (c : Cdap) (qp : List (String × String)) : ApiRequestSpecification :=
  mkSpec RequestType.GET (c.rest_url ++ "/apps") qp Option.none c.verify

/-- Request built by `Cdap.get_pipeline_info` (also the existence
probe of `create_pipeline`). -/
def info_spec (c : Cdap) (pipeline_name : String) : ApiRequestSpecification :=
  mkSpec RequestType.GET (c.rest_url ++ "/apps/" ++ pipeline_name) [] Option.none c.verify

/-- The PUT deployment request of `Cdap.create_pipeline`. -/
def put_spec (c : Cdap) (pipeline_name : String) (input_json : Json) :
    ApiRequestSpecification :=
  mkSpec RequestType.PUT (c.rest_url ++ "/apps/" ++ pipeline_name) []
    (some input_json) c.verify

/-- The runs-listing request of `Cdap.get_workflow_executions`. -/
def runs_spec (c : Cdap) (pn wt wid : String) : ApiRequestSpecification :=
  mkSpec RequestType.GET
    (c.rest_url ++ "/apps/" ++ pn ++ "/" ++ wt ++ "/" ++ wid ++ "/runs")
    [] Option.none c.verify

/-- The run-fetch request of `Cdap.get_workflow_execution_by_id`. -/
def run_by_id_spec (c : Cdap) (pn wt wid rid : String) : ApiRequestSpecification :=
  mkSpec RequestType.GET
    (c.rest_url ++ "/apps/" ++ pn ++ "/" ++ wt ++ "/" ++ wid ++ "/runs/" ++ rid)
    [] Option.none c.verify

/-- The stop request of `Cdap.stop_pipeline`. -/
def stop_spec (c : Cdap) (pn wt wid rid : String) : ApiRequestSpecification :=
  mkSpec RequestType.POST
    (c.rest_url ++ "/apps/" ++ pn ++ "/" ++ wt ++ "/" ++ wid ++ "/runs/" ++ rid ++ "/stop")
    [] Option.none c.verify

/-- The submission request of `Cdap.query_dataset`: built on
`self.rest_url`, the namespaced root. -/
def query_submit_spec (c : Cdap) (query : String) : ApiRequestSpecification :=
  mkSpec RequestType.POST (c.rest_url ++ "/data/explore/queries") []
    (some (Json.obj [("query", Json.str query)])) c.verify

/-- The status request of `Cdap.get_query_status`: built on
`self.rest_base_url`, the un-namespaced root. -/
def query_status_spec (c : Cdap) (query_handle : String) : ApiRequestSpecification :=
  mkSpec RequestType.GET
    (c.rest_base_url ++ "/v3/data/explore/queries/" ++ query_handle ++ "/status")
    [] Option.none c.verify

/-- The download request of `Cdap.download_query_results`. -/
def query_download_spec (c : Cdap) (query_handle : String) : ApiRequestSpecification :=
  mkSpec RequestType.POST
    (c.rest_base_url ++ "/v3/data/explore/queries/" ++ query_handle ++ "/download")
    [] Option.none c.verify

/-- The results request of `Cdap.view_query_result`. -/
def query_next_spec (c : Cdap) (query_handle : String) : ApiRequestSpecification :=
  mkSpec RequestType.POST
    (c.rest_base_url ++ "/v3/data/explore/queries/" ++ query_handle ++ "/next")
    [] Option.none c.verify

/-- The schema request of `Cdap.schema`. -/
def query_schema_spec (c : Cdap) (query_handle : String) : ApiRequestSpecification :=
  mkSpec RequestType.GET
    (c.rest_base_url ++ "/v3/data/explore/queries/" ++ query_handle ++ "/schema")
    [] Option.none c.verify

/-- Embedding of `Cdap.apps`: list apps, optionally filtered by artifact name and
version query parameters (absent arguments contribute no parameter). -/
def Cdap.apps (c : Cdap) (artifact_name artifact_version : Option String) :
    M Response :=
  c.execute_request (apps_spec c
    ((match artifact_name with
      | some a => [("artifactName", a)]
      | Option.none => []) ++
     (match artifact_version with
      | some v => [("artifactVersion", v)]
      | Option.none => [])))

/-- Embedding of `Cdap.get_all_pipelines`: the names of all listed apps. -/
def Cdap.get_all_pipelines (c : Cdap)
    (artifact_name artifact_version : Option String) : M (List String) := do
  let r ← c.apps artifact_name artifact_version
  liftE (decodeNames r.body)

/-- The result of `Cdap.create_pipeline`: the Python method returns
either the literal False or the raw PUT response. -/
inductive CreateResult where
  | sentinelFalse
  | resp (r : Response)

/-- The deployment PUT shared by both fallthrough paths of
`create_pipeline`. -/
def Cdap.create_pipeline_put (c : Cdap) (pipeline_name : String)
    (input_json : Json) : M CreateResult := do
  let r ← c.execute_request (put_spec c pipeline_name input_json)
  M.pure (CreateResult.resp r)

/-- Embedding of `Cdap.get_pipeline_info`. -/
def Cdap.get_pipeline_info (c : Cdap) (pipeline_name : String) : M Response :=
  c.execute_request (info_spec c pipeline_name)

/-- Embedding of `Cdap.create_pipeline`: `if overwrite_pipeline is False and
self.get_pipeline_info(pipeline_name).status_code == 200`, warn and
return False; otherwise PUT the deployment JSON. The identity
comparison and the short-circuit (the probe GET happens only when the
first conjunct holds) are preserved. -/
def Cdap.create_pipeline (c : Cdap) (pipeline_name : String)
    (overwrite_pipeline : PyVal) (input_json : Json) : M CreateResult :=
  if overwrite_pipeline = PyVal.bool false then do
    let probe ← c.get_pipeline_info pipeline_name
    if probe.status_code = 200 then do
      logMsg ("Pipeline " ++ pipeline_name ++ " already exists")
      M.pure CreateResult.sentinelFalse
    else c.create_pipeline_put pipeline_name input_json
  else c.create_pipeline_put pipeline_name input_json

/-- Embedding of `Cdap.get_programs`: the `programs` field of the pipeline info
JSON. -/
def Cdap.get_programs (c : Cdap) (pipeline_name : String) : M Json := do
  let r ← c.get_pipeline_info pipeline_name
  liftE (r.body.index "programs")

/-- Embedding of `Cdap.get_workflow`: the Workflow Resolver applied to the decoded
program list. -/
def Cdap.get_workflow (c : Cdap) (pipeline_name : String) : M (Option Program) := do
  let progsJson ← c.get_programs pipeline_name
  let progs ← liftE (decodePrograms progsJson)
  M.pure (Workflows.get_cdap_workflow progs)

/-- Subscripting the resolver result (`workflow["name"]`): when the
resolver returned None, Python raises TypeError. -/
def requireWorkflow (w : Option Program) : M Program :=
  liftE
    (match w with
     | some p => Except.ok p
     | Option.none => Except.error "TypeError: NoneType is not subscriptable")

/-- Embedding of `Cdap.get_workflow_executions`: resolve the workflow, then GET its
runs listing. -/
def Cdap.get_workflow_executions (c : Cdap) (pipeline_name : String) : M Response := do
  let w ← c.get_workflow pipeline_name
  let wf ← requireWorkflow w
  let wt ← liftE (Workflows.get_api_workflow_name wf.type)
  c.execute_request (runs_spec c pipeline_name wt wf.name)

/-- Embedding of `Cdap.get_workflow_execution_by_id`: resolve the workflow, then
GET the single run. -/
def Cdap.get_workflow_execution_by_id (c : Cdap)
    (pipeline_name execution_id : String) : M Response := do
  let w ← c.get_workflow pipeline_name
  let wf ← requireWorkflow w
  let wt ← liftE (Workflows.get_api_workflow_name wf.type)
  c.execute_request (run_by_id_spec c pipeline_name wt wf.name execution_id)

/-- The descending lexicographic order on the composite sort keys
`(starting, index)`, i.e. the order in which
`sorted(pairs, reverse=True)` lists them. -/
def descLe (a b : Int × Nat) : Prop :=
  b.1 < a.1 ∨ (b.1 = a.1 ∧ b.2 ≤ a.2)

instance : DecidableRel descLe := fun a b =>
  inferInstanceAs (Decidable (b.1 < a.1 ∨ (b.1 = a.1 ∧ b.2 ≤ a.2)))

/-- The selection logic of `get_last_executed_workflow_id` on the
fetched execution list: empty list gives the empty-string sentinel;
otherwise sort the composite keys `(starting, index)` descending, take
the index of the first one and return the run id of that entry (through
Python str()). The keys are pairwise distinct, so the sorting
algorithm is irrelevant; the unreachable fallbacks mirror Python
IndexError situations that cannot occur.

The composite sort keys are built by `sortKeys`, the comprehension
over `enumerate(execution_list)`. -/
def sortKeys (execution_list : List Execution) : List (Int × Nat) :=
  execution_list.enum.map (fun p => (p.2.starting, p.1))

def last_executed_id_of (execution_list : List Execution) : String :=
  if execution_list.length = 0 then ""
  else
    match List.insertionSort descLe (sortKeys execution_list) with
    | [] => ""
    | q :: _ =>
      match execution_list.get? q.2 with
      | some item => item.runid
      | Option.none => ""

/-- Embedding of `Cdap.get_last_executed_workflow_id`. -/
def Cdap.get_last_executed_workflow_id (c : Cdap) (pipeline_name : String) :
    M String := do
  let r ← c.get_workflow_executions pipeline_name
  let l ← liftE (decodeExecutions r.body)
  M.pure (last_executed_id_of l)

/-- Embedding of `Cdap._update_status`: the empty-string sentinel short-circuits to
NOT_EXECUTED with no request; otherwise fetch the run and return
str() of its status field. -/
def Cdap.update_status (c : Cdap) (pipeline_name execution_id : String) :
    M String :=
  if execution_id = "" then M.pure "NOT_EXECUTED"
  else do
    let r ← c.get_workflow_execution_by_id pipeline_name execution_id
    let st ← liftE (r.body.index "status")
    M.pure (pyStr st)

/-- Embedding of `Cdap.get_last_executed_workflow_status`. -/
def Cdap.get_last_executed_workflow_status (c : Cdap) (pipeline_name : String) :
    M String := do
  let run_id ← c.get_last_executed_workflow_id pipeline_name
  c.update_status pipeline_name run_id

/-- Embedding of `Cdap.get_workflow_execution_status_by_id`. -/
def Cdap.get_workflow_execution_status_by_id (c : Cdap)
    (pipeline_name execution_id : String) : M String :=
  c.update_status pipeline_name execution_id

/-- Embedding of `Cdap.query_dataset` (note: built on the namespaced `rest_url`). -/
def Cdap.query_dataset (c : Cdap) (query : String) : M Response :=
  c.execute_request (query_submit_spec c query)

/-- Embedding of `Cdap.get_query_status` (built on the un-namespaced
`rest_base_url`). -/
def Cdap.get_query_status (c : Cdap) (query_handle : String) : M Response :=
  c.execute_request (query_status_spec c query_handle)

/-- Embedding of `Cdap.download_query_results`. -/
def Cdap.download_query_results (c : Cdap) (query_handle : String) : M Response :=
  c.execute_request (query_download_spec c query_handle)

/-- Embedding of `Cdap.view_query_result`. -/
def Cdap.view_query_result (c : Cdap) (query_handle : String) : M Response :=
  c.execute_request (query_next_spec c query_handle)

/-- Embedding of `Cdap.schema`. -/
def Cdap.schema (c : Cdap) (query_handle : String) : M Response :=
  c.execute_request (query_schema_spec c query_handle)

/-- Embedding of `Cdap.stop_pipeline`: resolve the last-executed run id and the
workflow, then POST the stop call; an empty run id is interpolated
into the URL unguarded. -/
def Cdap.stop_pipeline (c : Cdap) (pipeline_name : String) : M Response := do
  let execution_id ← c.get_last_executed_workflow_id pipeline_name
  let w ← c.get_workflow pipeline_name
  let wf ← requireWorkflow w
  let wt ← liftE (Workflows.get_api_workflow_name wf.type)
  c.execute_request (stop_spec c pipeline_name wt wf.name execution_id)

/-- The loop body of `Cdap.stop_all_pipelines`: try to stop each
pipeline in order; an exception is swallowed, a line is logged, and
the loop continues with the remaining pipelines. -/
def stopLoop (c : Cdap) : List String → M PUnit
  | [] => M.pure PUnit.unit
  | p :: rest => fun net e =>
    match c.stop_pipeline p net e with
    | (Except.ok _, e1) => stopLoop c rest net e1
    | (Except.error _, e1) =>
      stopLoop c rest net ⟨e1.reqs, e1.logs ++ ["Cannot stop pipeline " ++ p]⟩

/-- Embedding of `Cdap.stop_all_pipelines`. -/
def Cdap.stop_all_pipelines (c : Cdap) : M PUnit := do
  let ps ← c.get_all_pipelines Option.none Option.none
  stopLoop c ps

/-! ### Basic evaluation lemmas for the effect monad -/

@[simp]
theorem M.pure_apply (a : α) (net : Net) (e : Eff) :
    M.pure a net e = (Except.ok a, e) := rfl

@[simp]
theorem M.bind_apply (x : M α) (f : α → M β) (net : Net) (e : Eff) :
    (x >>= f) net e =
      match x net e with
      | (Except.ok a, e1) => f a net e1
      | (Except.error msg, e1) => (Except.error msg, e1) := rfl

@[simp]
theorem liftE_apply (x : Except String α) (net : Net) (e : Eff) :
    liftE x net e = (x, e) := rfl

@[simp]
theorem raw_execute_apply (spec : ApiRequestSpecification) (net : Net) (e : Eff) :
    raw_execute spec net e = (net spec, ⟨e.reqs ++ [spec], e.logs⟩) := rfl

@[simp]
theorem logMsg_apply (m : String) (net : Net) (e : Eff) :
    logMsg m net e = (Except.ok PUnit.unit, ⟨e.reqs, e.logs ++ [m]⟩) := rfl

theorem execute_request_apply (c : Cdap) (spec : ApiRequestSpecification)
    (net : Net) (e : Eff) :
    c.execute_request spec net e =
      (net (c.dispatched spec), ⟨e.reqs ++ [c.dispatched spec], e.logs⟩) := rfl

/-! ### C1: primary workflow selection -/

/-- The workflow test of the selection loop, as a Boolean predicate. -/
def isWorkflowTyped (p : Program) : Bool := decide (pyUpper p.type = "WORKFLOW")

/-- The spark test of the selection loop, as a Boolean predicate. -/
def isSparkTyped (p : Program) : Bool := decide (pyUpper p.type = "SPARK")

/-- Unfolding of `getLast?` on a cons cell in terms of the tail. -/
theorem getLast?_cons_eq (a : α) (l : List α) :
    (a :: l).getLast? =
      some (match l.getLast? with
            | some b => b
            | Option.none => a) := by
  induction l generalizing a with
  | nil => rfl
  | cons b t ih => rw [List.getLast?_cons_cons, ih b]

/-- The loop of `get_cdap_workflow` with accumulator `spark`: first
workflow-typed entry if any; otherwise the last spark-typed entry if
any; otherwise the accumulator. -/
theorem get_cdap_workflow_aux_spec (spark : Option Program) (l : List Program) :
    get_cdap_workflow_aux spark l =
      (match l.find? isWorkflowTyped with
       | some p => some p
       | Option.none =>
         match (l.filter isSparkTyped).getLast? with
         | some q => some q
         | Option.none => spark) := by
  induction l generalizing spark with
  | nil => rfl
  | cons p rest ih =>
    by_cases hw : pyUpper p.type = "WORKFLOW"
    · have hwt : isWorkflowTyped p = true := by simp [isWorkflowTyped, hw]
      rw [get_cdap_workflow_aux, if_pos hw, List.find?_cons_of_pos _ hwt]
    · have hwf : ¬ isWorkflowTyped p = true := by simp [isWorkflowTyped, hw]
      by_cases hs : pyUpper p.type = "SPARK"
      · have hst : isSparkTyped p = true := by simp [isSparkTyped, hs]
        rw [get_cdap_workflow_aux, if_neg hw, if_pos hs, ih,
            List.find?_cons_of_neg _ hwf, List.filter_cons_of_pos hst]
        cases hfind : rest.find? isWorkflowTyped with
        | some q => rfl
        | none =>
          rw [getLast?_cons_eq]
          cases hlast : (rest.filter isSparkTyped).getLast? <;> rfl
      · have hsf : ¬ isSparkTyped p = true := by simp [isSparkTyped, hs]
        rw [get_cdap_workflow_aux, if_neg hw, if_neg hs, ih,
            List.find?_cons_of_neg _ hwf, List.filter_cons_of_neg hsf]

/-- C1: for every list of program descriptors, `get_cdap_workflow`
returns the first entry whose type compares case-insensitively equal
to "workflow"; if there is none, the last entry (in iteration order)
whose type compares case-insensitively equal to "spark"; and if
neither kind of entry exists (in particular on the empty list), it
returns no entry. -/
theorem get_cdap_workflow_first_workflow_else_last_spark (l : List Program) :
    Workflows.get_cdap_workflow l =
      (match l.find? isWorkflowTyped with
       | some p => some p
       | Option.none => (l.filter isSparkTyped).getLast?) := by
  rw [Workflows.get_cdap_workflow, get_cdap_workflow_aux_spec]
  cases hfind : l.find? isWorkflowTyped with
  | some q => rfl
  | none =>
    simp only
    cases hlast : (l.filter isSparkTyped).getLast? <;> rfl

/-! ### C3: program type to API path segment -/

/-- C3: `get_api_workflow_name` is case-insensitive: any string whose
uppercase form is WORKFLOW maps to "workflows", any string whose
uppercase form is SPARK maps to "spark", and any other string raises
(KeyError) rather than returning a value. -/
theorem get_api_workflow_name_case_insensitive (s1 s2 s3 : String)
    (h1 : pyUpper s1 = "WORKFLOW") (h2 : pyUpper s2 = "SPARK")
    (h3 : pyUpper s3 ≠ "WORKFLOW") (h4 : pyUpper s3 ≠ "SPARK") :
    Workflows.get_api_workflow_name s1 = Except.ok "workflows" ∧
    Workflows.get_api_workflow_name s2 = Except.ok "spark" ∧
    Workflows.get_api_workflow_name s3 =
      Except.error ("KeyError: " ++ pyUpper s3) := by
  refine ⟨?_, ?_, ?_⟩ <;>
    simp [Workflows.get_api_workflow_name, h1, h2, h3, h4]

/-- Witness for C3 at the inputs "Workflow", "spark", "mapreduce". -/
theorem get_api_workflow_name_case_insensitive_witness :
    (pyUpper "Workflow" = "WORKFLOW" ∧ pyUpper "spark" = "SPARK" ∧
      pyUpper "mapreduce" ≠ "WORKFLOW" ∧ pyUpper "mapreduce" ≠ "SPARK") ∧
    (Workflows.get_api_workflow_name "Workflow" = Except.ok "workflows" ∧
     Workflows.get_api_workflow_name "spark" = Except.ok "spark" ∧
     Workflows.get_api_workflow_name "mapreduce" =
       Except.error ("KeyError: " ++ pyUpper "mapreduce")) :=
  ⟨⟨by decide, by decide, by decide, by decide⟩,
   get_api_workflow_name_case_insensitive "Workflow" "spark" "mapreduce"
     (by decide) (by decide) (by decide) (by decide)⟩

/-! ### C2: selection of the last executed workflow id -/

instance : IsTotal (Int × Nat) descLe :=
  ⟨by
    intro a b
    rcases a with ⟨x, i⟩
    rcases b with ⟨y, j⟩
    simp only [descLe]
    omega⟩

instance : IsTrans (Int × Nat) descLe :=
  ⟨by
    intro a b c hab hbc
    rcases a with ⟨x, i⟩
    rcases b with ⟨y, j⟩
    rcases c with ⟨z, k⟩
    simp only [descLe] at hab hbc ⊢
    omega⟩

/-- The concrete execution list of the worked example in the spec. -/
def exampleExecutions : List Execution :=
  [⟨10, "a"⟩, ⟨30, "b"⟩, ⟨30, "c"⟩]

/-- C2: on the empty fetched execution list the selection returns the
empty string; on a non-empty list it returns the run id of an entry
whose composite key `(starting, index)` dominates every entry
(maximum start time, exact ties broken by the highest list index); and
on the worked example with starts 10, 30, 30 it picks run id "c". -/
theorem last_executed_workflow_id_selection (l : List Execution) (h : l ≠ []) :
    last_executed_id_of [] = "" ∧
    (∃ i, ∃ hi : i < l.length,
      last_executed_id_of l = (l.get ⟨i, hi⟩).runid ∧
      ∀ j, ∀ hj : j < l.length,
        (l.get ⟨j, hj⟩).starting < (l.get ⟨i, hi⟩).starting ∨
        ((l.get ⟨j, hj⟩).starting = (l.get ⟨i, hi⟩).starting ∧ j ≤ i)) ∧
    last_executed_id_of exampleExecutions = "c" := by
  refine ⟨rfl, ?_, by decide⟩
  have hlen0 : ¬ l.length = 0 := by simpa [List.length_eq_zero] using h
  have hlen : (sortKeys l).length = l.length := by
    simp [sortKeys, List.enum_length]
  have hperm := List.perm_insertionSort descLe (sortKeys l)
  have hsorted := List.sorted_insertionSort descLe (sortKeys l)
  cases hs : List.insertionSort descLe (sortKeys l) with
  | nil =>
    exfalso
    rw [hs] at hperm
    have : (sortKeys l).length = 0 := by
      rw [← hperm.length_eq]
      rfl
    rw [hlen] at this
    exact hlen0 this
  | cons q t =>
    have hq_mem : q ∈ sortKeys l := by
      have hmem : q ∈ List.insertionSort descLe (sortKeys l) := by
        rw [hs]
        exact List.mem_cons_self q t
      exact hperm.mem_iff.mp hmem
    rw [sortKeys] at hq_mem
    obtain ⟨pr, hpr_mem, hpr_eq⟩ := List.mem_map.mp hq_mem
    have hget : l.get? pr.1 = some pr.2 := List.mem_enum_iff_get?.mp hpr_mem
    obtain ⟨hi, hgi⟩ := List.get?_eq_some.mp hget
    refine ⟨pr.1, hi, ?_, ?_⟩
    · rw [last_executed_id_of, if_neg hlen0, hs, ← hpr_eq]
      simp only
      rw [hget, hgi]
    · intro j hj
      have hmem_j : ((l.get ⟨j, hj⟩).starting, j) ∈ sortKeys l := by
        rw [sortKeys]
        refine List.mem_map.mpr ⟨(j, l.get ⟨j, hj⟩), ?_, rfl⟩
        exact List.mem_enum_iff_get?.mpr (by rw [List.get?_eq_get hj])
      have hmem_j' : ((l.get ⟨j, hj⟩).starting, j) ∈ q :: t := by
        rw [← hs]
        exact hperm.mem_iff.mpr hmem_j
      rcases List.mem_cons.mp hmem_j' with heq | hmem_t
      · rw [← hpr_eq] at heq
        have h1 : (l.get ⟨j, hj⟩).starting = pr.2.starting := congrArg Prod.fst heq
        have h2 : j = pr.1 := congrArg Prod.snd heq
        right
        rw [hgi, h1, h2]
        exact ⟨rfl, Nat.le_refl pr.1⟩
      · have hrel := List.rel_of_sorted_cons (hs ▸ hsorted) _ hmem_t
        rw [← hpr_eq] at hrel
        simp only [descLe] at hrel
        rw [hgi]
        exact hrel

/-- Witness for C2 at the worked example of the spec. -/
theorem last_executed_workflow_id_selection_witness :
    exampleExecutions ≠ [] ∧
    (last_executed_id_of [] = "" ∧
     (∃ i, ∃ hi : i < exampleExecutions.length,
       last_executed_id_of exampleExecutions =
         (exampleExecutions.get ⟨i, hi⟩).runid ∧
       ∀ j, ∀ hj : j < exampleExecutions.length,
         (exampleExecutions.get ⟨j, hj⟩).starting <
             (exampleExecutions.get ⟨i, hi⟩).starting ∨
         ((exampleExecutions.get ⟨j, hj⟩).starting =
             (exampleExecutions.get ⟨i, hi⟩).starting ∧ j ≤ i)) ∧
     last_executed_id_of exampleExecutions = "c") :=
  ⟨by decide, last_executed_workflow_id_selection exampleExecutions (by decide)⟩

/-! ### C5 and C10: create_pipeline branching -/

/-- C5: when `overwrite_pipeline` is the literal False and the
existence probe answers HTTP 200, `create_pipeline` returns the
sentinel False, logs the warning, and the only dispatched request is
the probe GET — no PUT is issued. -/
theorem create_pipeline_existing_not_overwritten
    (c : Cdap) (pn : String) (ij : Json) (net : Net) (e : Eff) (r : Response)
    (hprobe : net (c.dispatched (info_spec c pn)) = Except.ok r)
    (h200 : r.status_code = 200) :
    c.create_pipeline pn (PyVal.bool false) ij net e =
      (Except.ok CreateResult.sentinelFalse,
        ⟨e.reqs ++ [c.dispatched (info_spec c pn)],
         e.logs ++ ["Pipeline " ++ pn ++ " already exists"]⟩) := by
  simp [Cdap.create_pipeline, Cdap.get_pipeline_info, Cdap.execute_request,
        hprobe, h200]

/-- A concrete non-kerberized client for witnesses, exactly as
`Cdap.init` constructs it (see `c0_init`). -/
def c0 : Cdap :=
  ⟨"u", "pw", "h", "9999", "11015", PyVal.none, "ns1",
   "http://h:9999", "http://h:11015", "http://h:11015/v3/namespaces/ns1",
   true, Option.none⟩

/-- The client `c0` is the one produced by a non-kerberized construction; no
request is dispatched. -/
theorem c0_init (net : Net) (e : Eff) :
    Cdap.init "h" "11015" "9999" "u" "pw" PyVal.none "ns1" net e =
      (Except.ok c0, e) := rfl

/-- An oracle that answers 200 with a null body to everything. -/
def netC5 : Net := fun _ => Except.ok ⟨200, Json.null⟩

/-- Witness for C5 on `c0` with an existing pipeline "p1". -/
theorem create_pipeline_existing_not_overwritten_witness :
    netC5 (c0.dispatched (info_spec c0 "p1")) = Except.ok ⟨200, Json.null⟩ ∧
    (⟨200, Json.null⟩ : Response).status_code = 200 ∧
    c0.create_pipeline "p1" (PyVal.bool false) Json.null netC5 ⟨[], []⟩ =
      (Except.ok CreateResult.sentinelFalse,
        ⟨[] ++ [c0.dispatched (info_spec c0 "p1")],
         [] ++ ["Pipeline " ++ "p1" ++ " already exists"]⟩) :=
  ⟨rfl, rfl,
   create_pipeline_existing_not_overwritten c0 "p1" Json.null netC5
     ⟨[], []⟩ ⟨200, Json.null⟩ rfl rfl⟩

/-- C10: the probe happens only under the identity comparison
`overwrite_pipeline is False`; for every other argument value —
including the falsy None and 0 — no probe GET is issued and the PUT
deployment is dispatched unconditionally as the only request. -/
theorem create_pipeline_identity_comparison_overwrite
    (c : Cdap) (pn : String) (v : PyVal) (ij : Json) (net : Net) (e : Eff)
    (hv : v ≠ PyVal.bool false) :
    c.create_pipeline pn v ij net e =
      ((match net (c.dispatched (put_spec c pn ij)) with
        | Except.ok r => Except.ok (CreateResult.resp r)
        | Except.error msg => Except.error msg),
       ⟨e.reqs ++ [c.dispatched (put_spec c pn ij)], e.logs⟩) := by
  rw [Cdap.create_pipeline, if_neg hv]
  cases hnet : net (c.dispatched (put_spec c pn ij)) with
  | ok r => simp [Cdap.create_pipeline_put, Cdap.execute_request, hnet]
  | error msg => simp [Cdap.create_pipeline_put, Cdap.execute_request, hnet]

/-- Witness for C10 at the falsy non-False value None. -/
theorem create_pipeline_identity_comparison_overwrite_witness :
    PyVal.none ≠ PyVal.bool false ∧
    c0.create_pipeline "p1" PyVal.none Json.null netC5 ⟨[], []⟩ =
      ((match netC5 (c0.dispatched (put_spec c0 "p1" Json.null)) with
        | Except.ok r => Except.ok (CreateResult.resp r)
        | Except.error msg => Except.error msg),
       ⟨[] ++ [c0.dispatched (put_spec c0 "p1" Json.null)], ([] : List String)⟩) :=
  ⟨by decide,
   create_pipeline_identity_comparison_overwrite c0 "p1" PyVal.none Json.null
     netC5 ⟨[], []⟩ (by decide)⟩

/-! ### C7: stop_pipeline does not short-circuit on an empty run id -/

/-- C7: when the pipeline resolves to a workflow but has no prior
execution (the runs listing decodes to the empty list, so the resolved
run id is the empty-string sentinel), `stop_pipeline` still dispatches
the stop POST, whose URL carries an empty run-id path segment
(".../runs//stop"). The full request sequence is: pipeline info (run id
resolution), runs listing, pipeline info again (workflow resolution),
then the stop POST. -/
theorem stop_pipeline_empty_run_id_unguarded
    (c : Cdap) (pn : String) (net : Net) (e : Eff)
    (rInfo : Response) (pj : Json) (progs : List Program) (wf : Program)
    (wt : String) (rRuns : Response)
    (hinfo : net (c.dispatched (info_spec c pn)) = Except.ok rInfo)
    (hprogs : rInfo.body.index "programs" = Except.ok pj)
    (hdec : decodePrograms pj = Except.ok progs)
    (hwf : Workflows.get_cdap_workflow progs = some wf)
    (hwt : Workflows.get_api_workflow_name wf.type = Except.ok wt)
    (hruns : net (c.dispatched (runs_spec c pn wt wf.name)) = Except.ok rRuns)
    (hempty : decodeExecutions rRuns.body = Except.ok []) :
    c.stop_pipeline pn net e =
      (net (c.dispatched (stop_spec c pn wt wf.name "")),
       ⟨e.reqs ++
          [c.dispatched (info_spec c pn),
           c.dispatched (runs_spec c pn wt wf.name),
           c.dispatched (info_spec c pn),
           c.dispatched (stop_spec c pn wt wf.name "")],
        e.logs⟩) ∧
    (stop_spec c pn wt wf.name "").url =
      c.rest_url ++ "/apps/" ++ pn ++ "/" ++ wt ++ "/" ++ wf.name ++ "/runs//stop" := by
  constructor
  · simp [Cdap.stop_pipeline, Cdap.get_last_executed_workflow_id,
          Cdap.get_workflow_executions, Cdap.get_workflow, Cdap.get_programs,
          Cdap.get_pipeline_info, Cdap.execute_request, requireWorkflow,
          hinfo, hprogs, hdec, hwf, hwt, hruns, hempty, last_executed_id_of]
  · show ((c.rest_url ++ "/apps/" ++ pn ++ "/" ++ wt ++ "/" ++ wf.name ++ "/runs/") ++ "") ++ "/stop" =
      c.rest_url ++ "/apps/" ++ pn ++ "/" ++ wt ++ "/" ++ wf.name ++ "/runs//stop"
    rw [String.append_empty, String.append_assoc]
    rfl

/-- The resolved workflow program of the C7/C4 witness scenarios. -/
def wfW : Program := ⟨"Workflow", "wf1", "p1"⟩

/-- The `programs` JSON of the witness pipeline "p1". -/
def pjW : Json :=
  Json.arr [Json.obj
    [("type", Json.str "Workflow"), ("name", Json.str "wf1"),
     ("app", Json.str "p1")]]

/-- The pipeline-info response of the witness pipeline "p1". -/
def rInfoW : Response := ⟨200, Json.obj [("programs", pjW)]⟩

/-- An oracle for the C7 scenario: pipeline info for "p1" resolves to
a workflow; every other request (in particular the runs listing)
answers an empty JSON list. -/
def netC7 : Net := fun spec =>
  if spec.url = "http://h:11015/v3/namespaces/ns1/apps/p1" then Except.ok rInfoW
  else Except.ok ⟨200, Json.arr []⟩

/-- Witness for C7 on `c0` and pipeline "p1" with no executions. -/
theorem stop_pipeline_empty_run_id_unguarded_witness :
    netC7 (c0.dispatched (info_spec c0 "p1")) = Except.ok rInfoW ∧
    rInfoW.body.index "programs" = Except.ok pjW ∧
    decodePrograms pjW = Except.ok [wfW] ∧
    Workflows.get_cdap_workflow [wfW] = some wfW ∧
    Workflows.get_api_workflow_name wfW.type = Except.ok "workflows" ∧
    netC7 (c0.dispatched (runs_spec c0 "p1" "workflows" wfW.name)) =
      Except.ok ⟨200, Json.arr []⟩ ∧
    decodeExecutions (Json.arr []) = Except.ok [] ∧
    (c0.stop_pipeline "p1" netC7 ⟨[], []⟩ =
      (netC7 (c0.dispatched (stop_spec c0 "p1" "workflows" wfW.name "")),
       ⟨[] ++
          [c0.dispatched (info_spec c0 "p1"),
           c0.dispatched (runs_spec c0 "p1" "workflows" wfW.name),
           c0.dispatched (info_spec c0 "p1"),
           c0.dispatched (stop_spec c0 "p1" "workflows" wfW.name "")],
        ([] : List String)⟩) ∧
     (stop_spec c0 "p1" "workflows" wfW.name "").url =
       c0.rest_url ++ "/apps/" ++ "p1" ++ "/" ++ "workflows" ++ "/" ++ wfW.name ++
         "/runs//stop") :=
  ⟨rfl, rfl, rfl, rfl, rfl, rfl, rfl,
   stop_pipeline_empty_run_id_unguarded c0 "p1" netC7 ⟨[], []⟩ rInfoW pjW [wfW]
     wfW "workflows" ⟨200, Json.arr []⟩ rfl rfl rfl rfl rfl rfl rfl⟩

/-! ### C4: NOT_EXECUTED sentinel versus run fetch -/

/-- C4: on a pipeline whose runs listing is empty, the resolved run id
is the empty-string sentinel and `get_last_executed_workflow_status`
returns the literal "NOT_EXECUTED" while dispatching no run-by-id
fetch (the trace holds exactly the two resolution requests); on a
pipeline whose resolved run id is non-empty, it additionally fetches
exactly that run and returns the str() of the `status` field of the
run JSON. -/
theorem last_executed_status_sentinel_and_fetch
    (c : Cdap) (pnA pnB : String) (net : Net) (e : Eff)
    (rInfoA : Response) (pjA : Json) (progsA : List Program) (wfA : Program)
    (wtA : String) (rRunsA : Response)
    (rInfoB : Response) (pjB : Json) (progsB : List Program) (wfB : Program)
    (wtB : String) (rRunsB : Response) (lB : List Execution)
    (rRunB : Response) (stB : Json)
    (hinfoA : net (c.dispatched (info_spec c pnA)) = Except.ok rInfoA)
    (hprogsA : rInfoA.body.index "programs" = Except.ok pjA)
    (hdecA : decodePrograms pjA = Except.ok progsA)
    (hwfA : Workflows.get_cdap_workflow progsA = some wfA)
    (hwtA : Workflows.get_api_workflow_name wfA.type = Except.ok wtA)
    (hrunsA : net (c.dispatched (runs_spec c pnA wtA wfA.name)) = Except.ok rRunsA)
    (hemptyA : decodeExecutions rRunsA.body = Except.ok [])
    (hinfoB : net (c.dispatched (info_spec c pnB)) = Except.ok rInfoB)
    (hprogsB : rInfoB.body.index "programs" = Except.ok pjB)
    (hdecB : decodePrograms pjB = Except.ok progsB)
    (hwfB : Workflows.get_cdap_workflow progsB = some wfB)
    (hwtB : Workflows.get_api_workflow_name wfB.type = Except.ok wtB)
    (hrunsB : net (c.dispatched (runs_spec c pnB wtB wfB.name)) = Except.ok rRunsB)
    (hexecB : decodeExecutions rRunsB.body = Except.ok lB)
    (hneB : last_executed_id_of lB ≠ "")
    (hrunB : net (c.dispatched
        (run_by_id_spec c pnB wtB wfB.name (last_executed_id_of lB))) =
      Except.ok rRunB)
    (hstB : rRunB.body.index "status" = Except.ok stB) :
    c.get_last_executed_workflow_status pnA net e =
      (Except.ok "NOT_EXECUTED",
       ⟨e.reqs ++
          [c.dispatched (info_spec c pnA),
           c.dispatched (runs_spec c pnA wtA wfA.name)],
        e.logs⟩) ∧
    c.get_last_executed_workflow_status pnB net e =
      (Except.ok (pyStr stB),
       ⟨e.reqs ++
          [c.dispatched (info_spec c pnB),
           c.dispatched (runs_spec c pnB wtB wfB.name),
           c.dispatched (info_spec c pnB),
           c.dispatched
             (run_by_id_spec c pnB wtB wfB.name (last_executed_id_of lB))],
        e.logs⟩) := by
  constructor
  · simp [Cdap.get_last_executed_workflow_status,
          Cdap.get_last_executed_workflow_id, Cdap.get_workflow_executions,
          Cdap.get_workflow, Cdap.get_programs, Cdap.get_pipeline_info,
          Cdap.execute_request, requireWorkflow, Cdap.update_status,
          hinfoA, hprogsA, hdecA, hwfA, hwtA, hrunsA, hemptyA,
          last_executed_id_of]
  · simp [Cdap.get_last_executed_workflow_status,
          Cdap.get_last_executed_workflow_id, Cdap.get_workflow_executions,
          Cdap.get_workflow, Cdap.get_programs, Cdap.get_pipeline_info,
          Cdap.execute_request, requireWorkflow, Cdap.update_status,
          Cdap.get_workflow_execution_by_id,
          hinfoB, hprogsB, hdecB, hwfB, hwtB, hrunsB, hexecB, hneB,
          hrunB, hstB]

/-- Workflow of the never-executed witness pipeline "pe". -/
def wfE : Program := ⟨"Workflow", "wfe", "pe"⟩

/-- The `programs` JSON of pipeline "pe". -/
def pjE : Json :=
  Json.arr [Json.obj
    [("type", Json.str "Workflow"), ("name", Json.str "wfe"),
     ("app", Json.str "pe")]]

/-- Pipeline-info response of "pe". -/
def rInfoE : Response := ⟨200, Json.obj [("programs", pjE)]⟩

/-- Workflow of the executed witness pipeline "pn". -/
def wfN : Program := ⟨"Workflow", "wfn", "pn"⟩

/-- The `programs` JSON of pipeline "pn". -/
def pjN : Json :=
  Json.arr [Json.obj
    [("type", Json.str "Workflow"), ("name", Json.str "wfn"),
     ("app", Json.str "pn")]]

/-- Pipeline-info response of "pn". -/
def rInfoN : Response := ⟨200, Json.obj [("programs", pjN)]⟩

/-- Runs listing of "pn": one execution, start 5, run id "r1". -/
def rRunsN : Response :=
  ⟨200, Json.arr [Json.obj [("starting", Json.num 5), ("runid", Json.str "r1")]]⟩

/-- The decoded execution list of "pn". -/
def lbN : List Execution := [⟨5, "r1"⟩]

/-- Run JSON of run "r1" of pipeline "pn". -/
def rStatN : Response := ⟨200, Json.obj [("status", Json.str "COMPLETED")]⟩

/-- Oracle of the C4 scenario: "pe" resolves but was never run, "pn"
resolves and has run "r1" with status COMPLETED. -/
def netC4 : Net := fun spec =>
  if spec.url = "http://h:11015/v3/namespaces/ns1/apps/pe" then Except.ok rInfoE
  else if spec.url = "http://h:11015/v3/namespaces/ns1/apps/pn" then
    Except.ok rInfoN
  else if spec.url = "http://h:11015/v3/namespaces/ns1/apps/pn/workflows/wfn/runs" then
    Except.ok rRunsN
  else if spec.url = "http://h:11015/v3/namespaces/ns1/apps/pn/workflows/wfn/runs/r1" then
    Except.ok rStatN
  else Except.ok ⟨200, Json.arr []⟩

/-- Witness for C4 on `c0`, pipelines "pe" and "pn". -/
theorem last_executed_status_sentinel_and_fetch_witness :
    (netC4 (c0.dispatched (info_spec c0 "pe")) = Except.ok rInfoE ∧
     rInfoE.body.index "programs" = Except.ok pjE ∧
     decodePrograms pjE = Except.ok [wfE] ∧
     Workflows.get_cdap_workflow [wfE] = some wfE ∧
     Workflows.get_api_workflow_name wfE.type = Except.ok "workflows" ∧
     netC4 (c0.dispatched (runs_spec c0 "pe" "workflows" wfE.name)) =
       Except.ok ⟨200, Json.arr []⟩ ∧
     decodeExecutions (Json.arr []) = Except.ok [] ∧
     netC4 (c0.dispatched (info_spec c0 "pn")) = Except.ok rInfoN ∧
     rInfoN.body.index "programs" = Except.ok pjN ∧
     decodePrograms pjN = Except.ok [wfN] ∧
     Workflows.get_cdap_workflow [wfN] = some wfN ∧
     Workflows.get_api_workflow_name wfN.type = Except.ok "workflows" ∧
     netC4 (c0.dispatched (runs_spec c0 "pn" "workflows" wfN.name)) =
       Except.ok rRunsN ∧
     decodeExecutions rRunsN.body = Except.ok lbN ∧
     last_executed_id_of lbN ≠ "" ∧
     netC4 (c0.dispatched
         (run_by_id_spec c0 "pn" "workflows" wfN.name (last_executed_id_of lbN))) =
       Except.ok rStatN ∧
     rStatN.body.index "status" = Except.ok (Json.str "COMPLETED")) ∧
    (c0.get_last_executed_workflow_status "pe" netC4 ⟨[], []⟩ =
      (Except.ok "NOT_EXECUTED",
       ⟨[] ++
          [c0.dispatched (info_spec c0 "pe"),
           c0.dispatched (runs_spec c0 "pe" "workflows" wfE.name)],
        ([] : List String)⟩) ∧
     c0.get_last_executed_workflow_status "pn" netC4 ⟨[], []⟩ =
      (Except.ok (pyStr (Json.str "COMPLETED")),
       ⟨[] ++
          [c0.dispatched (info_spec c0 "pn"),
           c0.dispatched (runs_spec c0 "pn" "workflows" wfN.name),
           c0.dispatched (info_spec c0 "pn"),
           c0.dispatched
             (run_by_id_spec c0 "pn" "workflows" wfN.name
               (last_executed_id_of lbN))],
        ([] : List String)⟩)) :=
  ⟨⟨rfl, rfl, rfl, rfl, rfl, rfl, rfl, rfl, rfl, rfl, rfl, rfl, rfl, rfl,
    by decide, rfl, rfl⟩,
   last_executed_status_sentinel_and_fetch c0 "pe" "pn" netC4 ⟨[], []⟩
     rInfoE pjE [wfE] wfE "workflows" ⟨200, Json.arr []⟩
     rInfoN pjN [wfN] wfN "workflows" rRunsN lbN rStatN (Json.str "COMPLETED")
     rfl rfl rfl rfl rfl rfl rfl rfl rfl rfl rfl rfl rfl rfl (by decide)
     rfl rfl⟩

/-! ### C6: stop_all_pipelines tolerates per-pipeline failures -/

/-- The empty starting effects. -/
def Eff.empty : Eff := ⟨[], []⟩

/-- A computation is framed when its result does not depend on the
effects accumulated before it ran and it only appends to them. Every
client method is framed; this lets the per-pipeline iterations of the
bulk-stop loop be described independently of each other. -/
def Framed (m : M α) : Prop :=
  ∀ net e, m net e =
    ((m net Eff.empty).1,
     ⟨e.reqs ++ (m net Eff.empty).2.reqs, e.logs ++ (m net Eff.empty).2.logs⟩)

theorem Framed.of_pure (a : α) : Framed (M.pure a) := by
  intro net e
  simp [M.pure, Eff.empty]

theorem Framed.of_liftE (x : Except String α) : Framed (liftE x) := by
  intro net e
  simp [liftE, Eff.empty]

theorem Framed.of_raw_execute (spec : ApiRequestSpecification) :
    Framed (raw_execute spec) := by
  intro net e
  simp [raw_execute, Eff.empty]

theorem Framed.of_bind {α β : Type} {x : M α} {f : α → M β}
    (hx : Framed x) (hf : ∀ a, Framed (f a)) : Framed (x >>= f) := by
  intro net e
  have he := hx net e
  rcases h0 : x net Eff.empty with ⟨v, d⟩
  rw [h0] at he
  cases v with
  | error msg =>
    simp only [M.bind_apply, he, h0]
  | ok a =>
    have hfd := hf a net d
    have hfe := hf a net ⟨e.reqs ++ d.reqs, e.logs ++ d.logs⟩
    simp only [M.bind_apply, he, h0, hfe, hfd]
    simp [List.append_assoc]

theorem framed_execute_request (c : Cdap) (spec : ApiRequestSpecification) :
    Framed (c.execute_request spec) :=
  Framed.of_raw_execute (c.dispatched spec)

theorem framed_get_pipeline_info (c : Cdap) (pn : String) :
    Framed (c.get_pipeline_info pn) :=
  framed_execute_request c (info_spec c pn)

theorem framed_get_programs (c : Cdap) (pn : String) :
    Framed (c.get_programs pn) := by
  rw [Cdap.get_programs]
  exact Framed.of_bind (framed_get_pipeline_info c pn)
    (fun r => Framed.of_liftE _)

theorem framed_get_workflow (c : Cdap) (pn : String) :
    Framed (c.get_workflow pn) := by
  rw [Cdap.get_workflow]
  exact Framed.of_bind (framed_get_programs c pn)
    (fun pj => Framed.of_bind (Framed.of_liftE _)
      (fun progs => Framed.of_pure _))

theorem framed_requireWorkflow (w : Option Program) :
    Framed (requireWorkflow w) :=
  Framed.of_liftE _

theorem framed_get_workflow_executions (c : Cdap) (pn : String) :
    Framed (c.get_workflow_executions pn) := by
  rw [Cdap.get_workflow_executions]
  exact Framed.of_bind (framed_get_workflow c pn)
    (fun w => Framed.of_bind (framed_requireWorkflow w)
      (fun wf => Framed.of_bind (Framed.of_liftE _)
        (fun wt => framed_execute_request c _)))

theorem framed_get_last_executed_workflow_id (c : Cdap) (pn : String) :
    Framed (c.get_last_executed_workflow_id pn) := by
  rw [Cdap.get_last_executed_workflow_id]
  exact Framed.of_bind (framed_get_workflow_executions c pn)
    (fun r => Framed.of_bind (Framed.of_liftE _)
      (fun l => Framed.of_pure _))

theorem framed_stop_pipeline (c : Cdap) (pn : String) :
    Framed (c.stop_pipeline pn) := by
  rw [Cdap.stop_pipeline]
  exact Framed.of_bind (framed_get_last_executed_workflow_id c pn)
    (fun rid => Framed.of_bind (framed_get_workflow c pn)
      (fun w => Framed.of_bind (framed_requireWorkflow w)
        (fun wf => Framed.of_bind (Framed.of_liftE _)
          (fun wt => framed_execute_request c _))))

/-- The observable effect of one iteration of the stop-all loop on
pipeline `p`, from empty starting effects: the requests its
`stop_pipeline` attempt dispatched before returning or raising, plus
the "Cannot stop pipeline" log line when it raised. -/
def stopAttempt (c : Cdap) (net : Net) (p : String) : Eff :=
  match c.stop_pipeline p net Eff.empty with
  | (Except.ok _, e1) => e1
  | (Except.error _, e1) => ⟨e1.reqs, e1.logs ++ ["Cannot stop pipeline " ++ p]⟩

/-- The loop over the pipeline list never raises, and its effects are
the concatenation of the independent stop attempts of every pipeline: an
attempt that raises contributes its partial request trace and its
failure log line, and every later pipeline is still attempted. -/
theorem stopLoop_spec (c : Cdap) (ps : List String) (net : Net) (e : Eff) :
    stopLoop c ps net e =
      (Except.ok PUnit.unit,
       ⟨e.reqs ++ (ps.flatMap fun p => (stopAttempt c net p).reqs),
        e.logs ++ (ps.flatMap fun p => (stopAttempt c net p).logs)⟩) := by
  induction ps generalizing e with
  | nil => simp [stopLoop, M.pure]
  | cons p rest ih =>
    simp only [stopLoop]
    have hfr := framed_stop_pipeline c p net e
    rcases h0 : c.stop_pipeline p net Eff.empty with ⟨v, d⟩
    rw [h0] at hfr
    rw [hfr]
    cases v with
    | ok r => simp [ih, stopAttempt, h0, List.append_assoc]
    | error msg => simp [ih, stopAttempt, h0, List.append_assoc]

/-- C6: given that the pipeline listing succeeds and yields `ps`,
`stop_all_pipelines` never propagates a per-pipeline stop failure (it
returns normally for every oracle), and its trace is the listing GET
followed by the concatenated stop attempts of every pipeline in `ps`
in order — so a raising attempt (which contributes its failure log
line through `stopAttempt`) does not prevent any later pipeline from
being attempted. -/
theorem stop_all_pipelines_partial_failure_tolerance
    (c : Cdap) (net : Net) (e : Eff) (rApps : Response) (ps : List String)
    (happs : net (c.dispatched (apps_spec c [])) = Except.ok rApps)
    (hnames : decodeNames rApps.body = Except.ok ps) :
    c.stop_all_pipelines net e =
      (Except.ok PUnit.unit,
       ⟨e.reqs ++ [c.dispatched (apps_spec c [])] ++
          (ps.flatMap fun p => (stopAttempt c net p).reqs),
        e.logs ++ (ps.flatMap fun p => (stopAttempt c net p).logs)⟩) := by
  simp [Cdap.stop_all_pipelines, Cdap.get_all_pipelines, Cdap.apps,
        Cdap.execute_request, happs, hnames, stopLoop_spec, List.append_assoc]

/-- Workflow of the stoppable witness pipeline "pg". -/
def wfG : Program := ⟨"Workflow", "wfg", "pg"⟩

/-- The `programs` JSON of pipeline "pg". -/
def pjG : Json :=
  Json.arr [Json.obj
    [("type", Json.str "Workflow"), ("name", Json.str "wfg"),
     ("app", Json.str "pg")]]

/-- Pipeline-info response of "pg". -/
def rInfoG : Response := ⟨200, Json.obj [("programs", pjG)]⟩

/-- App-list response naming pipelines "pf" and "pg". -/
def rAppsC6 : Response :=
  ⟨200, Json.arr [Json.obj [("name", Json.str "pf")],
                  Json.obj [("name", Json.str "pg")]]⟩

/-- Oracle of the C6 scenario: stopping "pf" raises (its pipeline-info
request fails with a transport error) while "pg" stops normally. -/
def netC6 : Net := fun spec =>
  if spec.url = "http://h:11015/v3/namespaces/ns1/apps" then Except.ok rAppsC6
  else if spec.url = "http://h:11015/v3/namespaces/ns1/apps/pf" then
    Except.error "ConnectionError"
  else if spec.url = "http://h:11015/v3/namespaces/ns1/apps/pg" then
    Except.ok rInfoG
  else Except.ok ⟨200, Json.arr []⟩

/-- Witness for C6: with "pf" raising, its attempt is logged and the
following pipeline "pg" still receives its full stop attempt; the
bulk call returns normally. -/
theorem stop_all_pipelines_partial_failure_tolerance_witness :
    (netC6 (c0.dispatched (apps_spec c0 [])) = Except.ok rAppsC6 ∧
     decodeNames rAppsC6.body = Except.ok ["pf", "pg"]) ∧
    (stopAttempt c0 netC6 "pf").logs = ["Cannot stop pipeline " ++ "pf"] ∧
    (stopAttempt c0 netC6 "pg").logs = [] ∧
    (stopAttempt c0 netC6 "pg").reqs =
      [c0.dispatched (info_spec c0 "pg"),
       c0.dispatched (runs_spec c0 "pg" "workflows" "wfg"),
       c0.dispatched (info_spec c0 "pg"),
       c0.dispatched (stop_spec c0 "pg" "workflows" "wfg" "")] ∧
    c0.stop_all_pipelines netC6 ⟨[], []⟩ =
      (Except.ok PUnit.unit,
       ⟨[] ++ [c0.dispatched (apps_spec c0 [])] ++
          (["pf", "pg"].flatMap fun p => (stopAttempt c0 netC6 p).reqs),
        [] ++ (["pf", "pg"].flatMap fun p => (stopAttempt c0 netC6 p).logs)⟩) :=
  ⟨⟨rfl, rfl⟩, rfl, rfl, rfl,
   stop_all_pipelines_partial_failure_tolerance c0 netC6 ⟨[], []⟩ rAppsC6
     ["pf", "pg"] rfl rfl⟩

/-! ### C8: query operation URL roots -/

/-- An oracle answering 200 with a null body to everything. -/
def netOk : Net := fun _ => Except.ok ⟨200, Json.null⟩

/-- C8 counterexample: on the constructed client `c0` (namespace
"ns1"), the submission operation `query_dataset` builds its URL under
the NAMESPACED root — the dispatched URL contains the namespace id and
does not extend base/v3/data/explore/queries, contradicting the claim
that every query operation uses the un-namespaced root. -/
theorem query_dataset_namespaced_url_cex :
    Cdap.init "h" "11015" "9999" "u" "pw" PyVal.none "ns1" netOk ⟨[], []⟩ =
      (Except.ok c0, ⟨[], []⟩) ∧
    (c0.query_dataset "select x" netOk ⟨[], []⟩).2.reqs.map
        ApiRequestSpecification.url =
      ["http://h:11015/v3/namespaces/ns1/data/explore/queries"] ∧
    ("http://h:11015/v3/data/explore/queries".data.isPrefixOf
        "http://h:11015/v3/namespaces/ns1/data/explore/queries".data) =
      false :=
  ⟨rfl, rfl, by decide⟩

/-- C8 amended: the four handle-keyed query operations
(get_query_status, download_query_results, view_query_result, schema)
build their URLs under the un-namespaced root
base/v3/data/explore/queries..., while query_dataset (the submission)
builds its URL under the NAMESPACED root
base/v3/namespaces/ns/data/explore/queries; each operation dispatches
exactly that one request. -/
theorem query_url_roots_amended
    (ip rp up user pw ns handle query : String) (net0 : Net) (e0 : Eff)
    (c : Cdap)
    (hinit : Cdap.init ip rp up user pw PyVal.none ns net0 e0 =
      (Except.ok c, e0)) :
    (∀ net e, c.query_dataset query net e =
        (net (query_submit_spec c query),
         ⟨e.reqs ++ [query_submit_spec c query], e.logs⟩)) ∧
    (query_submit_spec c query).url =
      "http://" ++ ip ++ ":" ++ rp ++ "/v3/namespaces/" ++ ns ++
        "/data/explore/queries" ∧
    (∀ net e, c.get_query_status handle net e =
        (net (query_status_spec c handle),
         ⟨e.reqs ++ [query_status_spec c handle], e.logs⟩)) ∧
    (query_status_spec c handle).url =
      "http://" ++ ip ++ ":" ++ rp ++ "/v3/data/explore/queries/" ++ handle ++
        "/status" ∧
    (∀ net e, c.download_query_results handle net e =
        (net (query_download_spec c handle),
         ⟨e.reqs ++ [query_download_spec c handle], e.logs⟩)) ∧
    (query_download_spec c handle).url =
      "http://" ++ ip ++ ":" ++ rp ++ "/v3/data/explore/queries/" ++ handle ++
        "/download" ∧
    (∀ net e, c.view_query_result handle net e =
        (net (query_next_spec c handle),
         ⟨e.reqs ++ [query_next_spec c handle], e.logs⟩)) ∧
    (query_next_spec c handle).url =
      "http://" ++ ip ++ ":" ++ rp ++ "/v3/data/explore/queries/" ++ handle ++
        "/next" ∧
    (∀ net e, c.schema handle net e =
        (net (query_schema_spec c handle),
         ⟨e.reqs ++ [query_schema_spec c handle], e.logs⟩)) ∧
    (query_schema_spec c handle).url =
      "http://" ++ ip ++ ":" ++ rp ++ "/v3/data/explore/queries/" ++ handle ++
        "/schema" := by
  simp only [Cdap.init] at hinit
  rw [if_neg (by decide)] at hinit
  have hc : c =
      ⟨user, pw, ip, up, rp, PyVal.none, ns,
       "http://" ++ ip ++ ":" ++ up, "http://" ++ ip ++ ":" ++ rp,
       "http://" ++ ip ++ ":" ++ rp ++ "/v3/namespaces/" ++ ns,
       true, Option.none⟩ := by
    have := congrArg Prod.fst hinit
    simp only [Prod.fst] at this
    exact (Except.ok.injEq _ _ ▸ congrArg id this) ▸ rfl
  subst hc
  exact ⟨fun net e => rfl, rfl, fun net e => rfl, rfl, fun net e => rfl, rfl,
    fun net e => rfl, rfl, fun net e => rfl, rfl⟩

/-- Witness for the amended C8 on `c0` with handle "qh". -/
theorem query_url_roots_amended_witness :
    Cdap.init "h" "11015" "9999" "u" "pw" PyVal.none "ns1" netOk ⟨[], []⟩ =
      (Except.ok c0, ⟨[], []⟩) ∧
    ((∀ net e, c0.query_dataset "q1" net e =
        (net (query_submit_spec c0 "q1"),
         ⟨e.reqs ++ [query_submit_spec c0 "q1"], e.logs⟩)) ∧
     (query_submit_spec c0 "q1").url =
       "http://" ++ "h" ++ ":" ++ "11015" ++ "/v3/namespaces/" ++ "ns1" ++
         "/data/explore/queries" ∧
     (∀ net e, c0.get_query_status "qh" net e =
        (net (query_status_spec c0 "qh"),
         ⟨e.reqs ++ [query_status_spec c0 "qh"], e.logs⟩)) ∧
     (query_status_spec c0 "qh").url =
       "http://" ++ "h" ++ ":" ++ "11015" ++ "/v3/data/explore/queries/" ++
         "qh" ++ "/status" ∧
     (∀ net e, c0.download_query_results "qh" net e =
        (net (query_download_spec c0 "qh"),
         ⟨e.reqs ++ [query_download_spec c0 "qh"], e.logs⟩)) ∧
     (query_download_spec c0 "qh").url =
       "http://" ++ "h" ++ ":" ++ "11015" ++ "/v3/data/explore/queries/" ++
         "qh" ++ "/download" ∧
     (∀ net e, c0.view_query_result "qh" net e =
        (net (query_next_spec c0 "qh"),
         ⟨e.reqs ++ [query_next_spec c0 "qh"], e.logs⟩)) ∧
     (query_next_spec c0 "qh").url =
       "http://" ++ "h" ++ ":" ++ "11015" ++ "/v3/data/explore/queries/" ++
         "qh" ++ "/next" ∧
     (∀ net e, c0.schema "qh" net e =
        (net (query_schema_spec c0 "qh"),
         ⟨e.reqs ++ [query_schema_spec c0 "qh"], e.logs⟩)) ∧
     (query_schema_spec c0 "qh").url =
       "http://" ++ "h" ++ ":" ++ "11015" ++ "/v3/data/explore/queries/" ++
         "qh" ++ "/schema") :=
  ⟨rfl,
   query_url_roots_amended "h" "11015" "9999" "u" "pw" "ns1" "qh" "q1" netOk
     ⟨[], []⟩ c0 rfl⟩

/-! ### C9: kerberized construction, login and token handling -/

/-- Login oracle for kerberized construction scenarios. -/
def netLogin : Net := fun spec =>
  if spec.url = "https://h:9999/login" then
    Except.ok ⟨200, Json.obj [("access_token", Json.str "tok123")]⟩
  else Except.ok ⟨200, Json.arr []⟩

/-- The kerberized client produced by construction against
`netLogin`: both base-URL fields are HTTPS, TLS verification is
disabled, the token is stored — but the namespaced REST root, derived
before the scheme flip, keeps HTTP. -/
def c1k : Cdap :=
  ⟨"u", "pw", "h", "9999", "11015", PyVal.bool true, "ns1",
   "https://h:9999", "https://h:11015", "http://h:11015/v3/namespaces/ns1",
   false, some (Json.str "tok123")⟩

/-- C9 counterexample: after a kerberized construction the two
base-URL fields switch to HTTPS, but the namespaced REST root was
derived from the HTTP base before the login flipped the scheme, so a
subsequent namespaced call (here the app listing) is dispatched to an
http:// URL — it is not the case that every subsequent call goes to an
HTTPS base URL. -/
theorem kerberized_rest_url_stays_http_cex :
    Cdap.init "h" "11015" "9999" "u" "pw" (PyVal.bool true) "ns1" netLogin
        ⟨[], []⟩ =
      (Except.ok c1k, ⟨[login_spec "h" "9999" "u" "pw"], []⟩) ∧
    c1k.ui_base_url = "https://h:9999" ∧
    c1k.rest_base_url = "https://h:11015" ∧
    c1k.rest_url = "http://h:11015/v3/namespaces/ns1" ∧
    (c1k.apps Option.none Option.none netLogin ⟨[], []⟩).2.reqs.map
        ApiRequestSpecification.url =
      ["http://h:11015/v3/namespaces/ns1/apps"] ∧
    ("https://".data.isPrefixOf
        "http://h:11015/v3/namespaces/ns1/apps".data) = false :=
  ⟨rfl, rfl, rfl, rfl, rfl, by decide⟩

/-- C9 amended: constructing a kerberized client performs exactly one
request, the login POST of the credentials as a JSON body to the
UI-port login endpoint over HTTPS with TLS verification disabled and
no bearer token; the `access_token` field of the response is stored as
the single token of the client; TLS verification is disabled and the two
base-URL fields switch to HTTPS — while the namespaced REST root keeps
the HTTP scheme it was derived with; and every request subsequently
dispatched through the client carries exactly the stored token. The
constructed client record is immutable: no method of the embedding
writes any field, so the token is never recomputed or invalidated. -/
theorem kerberized_login_token_invariant
    (node_ip rest_port ui_port username password namespace_id : String)
    (net : Net) (e : Eff) (r : Response) (tok : Json)
    (hlogin : net (login_spec node_ip ui_port username password) = Except.ok r)
    (htok : r.body.index "access_token" = Except.ok tok) :
    ∃ c : Cdap,
      Cdap.init node_ip rest_port ui_port username password (PyVal.bool true)
          namespace_id net e =
        (Except.ok c,
         ⟨e.reqs ++ [login_spec node_ip ui_port username password], e.logs⟩) ∧
      (login_spec node_ip ui_port username password).request_type =
        RequestType.POST ∧
      (login_spec node_ip ui_port username password).url =
        "https://" ++ node_ip ++ ":" ++ ui_port ++ "/login" ∧
      (login_spec node_ip ui_port username password).json =
        some (Json.obj [("username", Json.str username),
                        ("password", Json.str password)]) ∧
      (login_spec node_ip ui_port username password).verify = false ∧
      (login_spec node_ip ui_port username password).bearer_token =
        Option.none ∧
      c.access_token = some tok ∧
      c.verify = false ∧
      c.ui_base_url = "https://" ++ node_ip ++ ":" ++ ui_port ∧
      c.rest_base_url = "https://" ++ node_ip ++ ":" ++ rest_port ∧
      c.rest_url = "http://" ++ node_ip ++ ":" ++ rest_port ++
        "/v3/namespaces/" ++ namespace_id ∧
      (∀ spec net2 e2, c.execute_request spec net2 e2 =
        (net2 (spec.set_bearer_token (some tok)),
         ⟨e2.reqs ++ [spec.set_bearer_token (some tok)], e2.logs⟩)) := by
  refine ⟨⟨username, password, node_ip, ui_port, rest_port, PyVal.bool true,
      namespace_id,
      "https://" ++ node_ip ++ ":" ++ ui_port,
      "https://" ++ node_ip ++ ":" ++ rest_port,
      "http://" ++ node_ip ++ ":" ++ rest_port ++ "/v3/namespaces/" ++
        namespace_id,
      false, some tok⟩,
    ?_, rfl, rfl, rfl, rfl, rfl, rfl, rfl, rfl, rfl, rfl,
    fun spec net2 e2 => rfl⟩
  simp only [Cdap.init]
  simp only [if_true, hlogin, htok]

/-- Witness for the amended C9 against `netLogin`. -/
theorem kerberized_login_token_invariant_witness :
    netLogin (login_spec "h" "9999" "u" "pw") =
      Except.ok ⟨200, Json.obj [("access_token", Json.str "tok123")]⟩ ∧
    (⟨200, Json.obj [("access_token", Json.str "tok123")]⟩ : Response).body.index
        "access_token" = Except.ok (Json.str "tok123") ∧
    (∃ c : Cdap,
      Cdap.init "h" "11015" "9999" "u" "pw" (PyVal.bool true) "ns1" netLogin
          ⟨[], []⟩ =
        (Except.ok c, ⟨[] ++ [login_spec "h" "9999" "u" "pw"], ([] : List String)⟩) ∧
      (login_spec "h" "9999" "u" "pw").request_type = RequestType.POST ∧
      (login_spec "h" "9999" "u" "pw").url =
        "https://" ++ "h" ++ ":" ++ "9999" ++ "/login" ∧
      (login_spec "h" "9999" "u" "pw").json =
        some (Json.obj [("username", Json.str "u"),
                        ("password", Json.str "pw")]) ∧
      (login_spec "h" "9999" "u" "pw").verify = false ∧
      (login_spec "h" "9999" "u" "pw").bearer_token = Option.none ∧
      c.access_token = some (Json.str "tok123") ∧
      c.verify = false ∧
      c.ui_base_url = "https://" ++ "h" ++ ":" ++ "9999" ∧
      c.rest_base_url = "https://" ++ "h" ++ ":" ++ "11015" ∧
      c.rest_url = "http://" ++ "h" ++ ":" ++ "11015" ++
        "/v3/namespaces/" ++ "ns1" ∧
      (∀ spec net2 e2, c.execute_request spec net2 e2 =
        (net2 (spec.set_bearer_token (some (Json.str "tok123"))),
         ⟨e2.reqs ++ [spec.set_bearer_token (some (Json.str "tok123"))],
          e2.logs⟩))) :=
  ⟨rfl, rfl,
   kerberized_login_token_invariant "h" "11015" "9999" "u" "pw" "ns1" netLogin
     ⟨[], []⟩ ⟨200, Json.obj [("access_token", Json.str "tok123")]⟩
     (Json.str "tok123") rfl rfl⟩
